import Mathlib

/-!
Verification development for the camera-optics repository.

The repository is a Tauri application: a TypeScript frontend (under `src/`)
driving a Rust optics backend (`src-tauri/src/optics/`, not shipped here).
The frontend pieces (DORI designer constraint collection, the camera-system
store, the export-to-comparison builder) are embedded directly from the
TypeScript source.  The optics core (forward model, DORI translator,
constraint-range resolver) is modelled from the specification, since only its
callers and documentation are present.

Numeric conventions: frontend arithmetic is embedded over `ℚ` (it is exact in
the fragments verified); the optics core, which uses `atan`/`tan`, is embedded
over `ℝ` with Mathlib's `Real.arctan` and `Real.tan`.
-/

open Real

namespace CameraOptics

/-- Surveillance performance tiers (spec §3, `PerformanceLevel`). -/
inductive PerformanceLevel where
  | detection
  | observation
  | recognition
  | identification
deriving DecidableEq, Repr

/-- Modelled from the spec: the constant density table (spec §3), in px/m.
The Rust table itself is not under `src/`; the values 25, 62.5, 125, 250 are
stated in the spec and repeated in `src/src/ui/results.ts`. -/
def density : PerformanceLevel → ℚ
  | .detection => 25
  | .observation => 125 / 2
  | .recognition => 125
  | .identification => 250

/-- Canonical order of the levels (spec §4.3 step 5 tie-break). -/
def canonicalIdx : PerformanceLevel → ℕ
  | .detection => 0
  | .observation => 1
  | .recognition => 2
  | .identification => 3

/-- Real-valued copy of the density table, for the forward optics model. -/
noncomputable def densityR (lvl : PerformanceLevel) : ℝ := (density lvl : ℝ)

/-- Optical configuration (spec §3).  Pixel counts are carried as reals;
positivity is imposed by hypotheses exactly where the spec demands it. -/
structure OpticalConfiguration where
  sensor_width_mm : ℝ
  sensor_height_mm : ℝ
  pixel_width : ℝ
  pixel_height : ℝ
  focal_length_mm : ℝ

/-- The all-finite-and-positive invariant of `OpticalConfiguration` (spec §3);
over `ℝ` finiteness is automatic. -/
def OpticalConfiguration.valid (c : OpticalConfiguration) : Prop :=
  0 < c.sensor_width_mm ∧ 0 < c.sensor_height_mm ∧ 0 < c.pixel_width ∧
    0 < c.pixel_height ∧ 0 < c.focal_length_mm

/-- Degrees-to-radians conversion (spec §4.1: angle arithmetic is internally
radians, degrees appear only at module boundaries). -/
noncomputable def degToRad (deg : ℝ) : ℝ := deg * π / 180

/-- Modelled from the spec: `angularFov(dimension_mm, focal_length_mm)`
= `2 * atan(dimension / (2*focal)) * 180/π` (spec §4.1); the Rust
implementation is not under `src/`.  The same formula appears in the
repository docs (`src/unnamed/part_007`, Field of View (Angular)). -/
noncomputable def angularFov (dimension focal : ℝ) : ℝ :=
  2 * Real.arctan (dimension / (2 * focal)) * 180 / π

/-- Modelled from the spec: `linearCoverage(fovDeg, distance_mm)`
= `2 * distance * tan(fovDeg/2 in radians)` (spec §4.1). -/
noncomputable def linearCoverage (fovDeg distance : ℝ) : ℝ :=
  2 * distance * Real.tan (degToRad fovDeg / 2)

/-- Modelled from the spec: `pixelDensity(pixel_count, coverage_m)`
= `pixel_count / coverage_m` (spec §4.1). -/
noncomputable def pixelDensity (pixelCount coverageM : ℝ) : ℝ :=
  pixelCount / coverageM

/-- Modelled from the spec: `groundSampleDistance(coverage, pixel_count)`
= `coverage / pixel_count` (spec §4.1). -/
noncomputable def groundSampleDistance (coverage pixelCount : ℝ) : ℝ :=
  coverage / pixelCount

/-- Axis selector for `deriveDoriDistances` (spec §4.1). -/
inductive Axis where
  | horizontal
  | vertical
deriving DecidableEq

/-- Sensor dimension along an axis. -/
def axisDim (c : OpticalConfiguration) : Axis → ℝ
  | .horizontal => c.sensor_width_mm
  | .vertical => c.sensor_height_mm

/-- Pixel count along an axis. -/
def axisPixels (c : OpticalConfiguration) : Axis → ℝ
  | .horizontal => c.pixel_width
  | .vertical => c.pixel_height

/-- Modelled from the spec: per-level solution
`distance = pixel_count / (2 * requiredDensity * tan(fovDeg/2))` along the
chosen axis (spec §4.1, `deriveDoriDistances`). -/
noncomputable def deriveDoriDistance (c : OpticalConfiguration) (axis : Axis)
    (lvl : PerformanceLevel) : ℝ :=
  axisPixels c axis /
    (2 * densityR lvl *
      Real.tan (degToRad (angularFov (axisDim c axis) c.focal_length_mm) / 2))

/-- The four DORI distances (`DoriDistances` in `src/src/core/types.ts`). -/
structure DoriDistances where
  detection_m : ℝ
  observation_m : ℝ
  recognition_m : ℝ
  identification_m : ℝ

/-- Field access of `DoriDistances` by level. -/
def DoriDistances.get (d : DoriDistances) : PerformanceLevel → ℝ
  | .detection => d.detection_m
  | .observation => d.observation_m
  | .recognition => d.recognition_m
  | .identification => d.identification_m

/-- Modelled from the spec: `deriveDoriDistances(configuration, axis)` maps
every performance level to its derived distance (spec §4.1). -/
noncomputable def deriveDoriDistances (c : OpticalConfiguration) (axis : Axis) :
    DoriDistances :=
  { detection_m := deriveDoriDistance c axis .detection
    observation_m := deriveDoriDistance c axis .observation
    recognition_m := deriveDoriDistance c axis .recognition
    identification_m := deriveDoriDistance c axis .identification }

/-- Modelled from the spec: the DORI Translator
(`computeDoriFromSingleDistance`, spec §4.2 and §6): from one known
(level, distance) pair each level B gets
`distance_B = distance_A * (density_A / density_B)`; the Rust
`calculate_dori_from_single_distance` command is not under `src/`, only its
TypeScript wrapper (`src/src/main.ts`). -/
noncomputable def computeDoriFromSingleDistance (distance_m : ℝ)
    (originating : PerformanceLevel) : DoriDistances :=
  { detection_m := distance_m * (densityR originating / densityR .detection)
    observation_m := distance_m * (densityR originating / densityR .observation)
    recognition_m := distance_m * (densityR originating / densityR .recognition)
    identification_m :=
      distance_m * (densityR originating / densityR .identification) }

/-- Modelled from the spec: `computeFocalLengthFromFov(sensor_dimension_mm,
fov_deg)`, the inverse of `angularFov` for one axis (spec §6); the Rust
`calculate_focal_length_from_fov` is not under `src/`, only its TypeScript
wrapper.  Inverting `fov = 2*atan(d/(2f))*180/π` gives
`f = d / (2 * tan(fov/2 in radians))`. -/
noncomputable def computeFocalLengthFromFov (sensorDimension fovDeg : ℝ) : ℝ :=
  sensorDimension / (2 * Real.tan (degToRad fovDeg / 2))

/-- Result record of `computeFov` (spec §6). -/
structure FovComputation where
  horizontal_fov_deg : ℝ
  vertical_fov_deg : ℝ
  horizontal_coverage_m : ℝ
  vertical_coverage_m : ℝ
  horizontal_density : ℝ
  vertical_density : ℝ
  ground_sample_distance : ℝ
  distance_m : ℝ

/-- Modelled from the spec: `computeFov(configuration, distance_mm)` (spec §6)
assembled from the §4.1 primitives; coverage is reported in meters, ground
sample distance in mm per pixel. -/
noncomputable def computeFov (c : OpticalConfiguration) (distance_mm : ℝ) :
    FovComputation :=
  let hFov := angularFov c.sensor_width_mm c.focal_length_mm
  let vFov := angularFov c.sensor_height_mm c.focal_length_mm
  let hCovMm := linearCoverage hFov distance_mm
  let vCovMm := linearCoverage vFov distance_mm
  { horizontal_fov_deg := hFov
    vertical_fov_deg := vFov
    horizontal_coverage_m := hCovMm / 1000
    vertical_coverage_m := vCovMm / 1000
    horizontal_density := pixelDensity c.pixel_width (hCovMm / 1000)
    vertical_density := pixelDensity c.pixel_height (vCovMm / 1000)
    ground_sample_distance := groundSampleDistance hCovMm c.pixel_width
    distance_m := distance_mm / 1000 }

/-! ## Constraint Range Resolver (spec §4.3)

Modelled from the spec: the Rust `calculate_dori_ranges` is not under `src/`,
only its TypeScript wrapper and the designer UI.  The resolver works on the
satisfying condition `pixel_count ≥ 2·ρ·distance·tan(fov/2)` with
`tan(fov/2) = sensor_dim/(2·focal)`, so every derived bound is a rational
function of the held values and the embedding stays exact over `ℚ`.  For the
`horizontal_fov_deg` quantity the resolver carries the bound in its
`tan(fov/2)` form (`pixel_count/(2·ρ·distance)`); the degree-valued bound
`2·atan(·)·180/π` is a strictly monotone image of it, so tightest-selection
and labelling are unaffected.  Tie-breaking keeps the canonically earliest
level (spec §4.3 step 5; with exact arithmetic the 1e-9 relative tolerance
collapses to equality). -/

/-- A requested (level, distance) pair (spec §3, `TargetSet` entry). -/
structure Target where
  level : PerformanceLevel
  distance_m : ℚ
deriving DecidableEq, Repr

/-- A target set is 1–4 targets; the length bounds appear as hypotheses. -/
abbrev TargetSet := List Target

/-- The six tunable quantities (spec §3, `ParameterAssignment`). -/
inductive Quantity where
  | sensorWidth
  | sensorHeight
  | pixelWidth
  | pixelHeight
  | focalLength
  | horizontalFov
deriving DecidableEq, Repr

/-- Listing of all six quantities. -/
def allQuantities : List Quantity :=
  [.sensorWidth, .sensorHeight, .pixelWidth, .pixelHeight, .focalLength,
    .horizontalFov]

/-- A parameter assignment: `some v` is Fixed(v), `none` is Free (spec §3). -/
def Assignment : Type := Quantity → Option ℚ

/-- Modelled from the spec: the neutral default a Free quantity other than the
one under analysis is held at (spec §4.3 step 3; the concrete values are a
documented open question, §9 — any positive choice works for the verified
properties). -/
def neutralDefault : Quantity → ℚ
  | .sensorWidth => 32 / 5
  | .sensorHeight => 24 / 5
  | .pixelWidth => 1920
  | .pixelHeight => 1080
  | .focalLength => 8
  | .horizontalFov => 60

/-- The value a quantity is held at while solving for another quantity:
its Fixed value, or the neutral default when Free. -/
def valueOf (a : Assignment) (q : Quantity) : ℚ :=
  (a q).getD (neutralDefault q)

/-- Direction of the derived bound (spec §4.3 step 3). -/
inductive BoundDir where
  | lower
  | upper
deriving DecidableEq

/-- Which direction each quantity's derived bound has (spec §4.3 step 3):
pixel counts and focal length get lower bounds, sensor dimensions and the
field of view get upper bounds. -/
def boundDir : Quantity → BoundDir
  | .sensorWidth => .upper
  | .sensorHeight => .upper
  | .pixelWidth => .lower
  | .pixelHeight => .lower
  | .focalLength => .lower
  | .horizontalFov => .upper

/-- Strictly more restrictive: for a lower bound a larger value, for an upper
bound a smaller value. -/
def tighter (q : Quantity) (x y : ℚ) : Prop :=
  match boundDir q with
  | .lower => y < x
  | .upper => x < y

instance (q : Quantity) (x y : ℚ) : Decidable (tighter q x y) := by
  unfold tighter
  cases boundDir q <;> infer_instance

/-- The quantities whose held values enter the bound for `q`; a non-positive
value among them is the trigonometric degeneracy of spec §4.3 step 7. -/
def needed : Quantity → List Quantity
  | .sensorWidth => [.pixelWidth, .focalLength]
  | .sensorHeight => [.pixelHeight, .focalLength]
  | .pixelWidth => [.sensorWidth, .focalLength]
  | .pixelHeight => [.sensorHeight, .focalLength]
  | .focalLength => [.sensorWidth, .pixelWidth]
  | .horizontalFov => [.pixelWidth]

/-- The bound derived for quantity `q` from one target (spec §4.3 steps 2–3),
with `tan(fov/2)` replaced by `sensor_dim/(2·focal)`:
pixel count `≥ ρ·d·dim/f`, focal `≥ ρ·d·dim/N`, sensor dim `≤ N·f/(ρ·d)`,
and for the field of view the `tan(fov/2)` form `≤ N/(2·ρ·d)`. -/
def derivedBound (a : Assignment) (q : Quantity) (t : Target) : ℚ :=
  match q with
  | .pixelWidth =>
      density t.level * t.distance_m * valueOf a .sensorWidth /
        valueOf a .focalLength
  | .pixelHeight =>
      density t.level * t.distance_m * valueOf a .sensorHeight /
        valueOf a .focalLength
  | .focalLength =>
      density t.level * t.distance_m * valueOf a .sensorWidth /
        valueOf a .pixelWidth
  | .sensorWidth =>
      valueOf a .pixelWidth * valueOf a .focalLength /
        (density t.level * t.distance_m)
  | .sensorHeight =>
      valueOf a .pixelHeight * valueOf a .focalLength /
        (density t.level * t.distance_m)
  | .horizontalFov =>
      valueOf a .pixelWidth / (2 * density t.level * t.distance_m)

/-- Failure taxonomy (spec §7). -/
inductive DoriError where
  | invalidInput
  | degenerateGeometry
  | unsatisfiable
deriving DecidableEq, Repr

/-- Per-quantity resolver output: the derived bound together with the level
that produced it (spec §3, `RangeResult`; the opposite bound is the
caller-supplied ceiling/floor and carries no derived information). -/
structure RangeResult where
  bound : ℚ
  limiting : PerformanceLevel
deriving DecidableEq, Repr

/-- Tightest-bound selection (spec §4.3 steps 4–5): keep the strictly tighter
candidate; on an exact tie keep the canonically earliest level. -/
def selectBest (q : Quantity) :
    PerformanceLevel × ℚ → List (PerformanceLevel × ℚ) → PerformanceLevel × ℚ
  | best, [] => best
  | best, c :: rest =>
      selectBest q
        (if tighter q c.2 best.2 ∨
            (c.2 = best.2 ∧ canonicalIdx c.1 < canonicalIdx best.1)
          then c else best) rest

/-- Resolve the range information for one Free quantity (spec §4.3): validate
the target set, detect degenerate geometry for the held values, then select
the tightest derived bound across all targets together with its level. -/
def resolveQuantity (ts : TargetSet) (a : Assignment) (q : Quantity) :
    Except DoriError RangeResult :=
  match ts with
  | [] => .error .invalidInput
  | t :: rest =>
      if (t :: rest).any (fun u => u.distance_m ≤ 0) then
        .error .invalidInput
      else if (needed q).any (fun q' => valueOf a q' ≤ 0) then
        .error .degenerateGeometry
      else
        let best := selectBest q (t.level, derivedBound a q t)
          (rest.map (fun u => (u.level, derivedBound a q u)))
        .ok ⟨best.2, best.1⟩

/-- Modelled from the spec: `computeDoriRanges(targets, constraints)`
(spec §6, §4.3) resolves every Free quantity independently and aggregates the
per-quantity outcomes — a failure for one quantity is recorded for that
quantity alone and never aborts the batch (spec §7). -/
def computeDoriRanges (ts : TargetSet) (a : Assignment) :
    List (Quantity × Except DoriError RangeResult) :=
  (allQuantities.filter (fun q => (a q).isNone)).map
    (fun q => (q, resolveQuantity ts a q))

/-! ## Frontend embeddings (TypeScript under `src/`) -/

/-- A caller-supplied min/max range (`ParameterRange` in
`src/src/core/types.ts`). -/
structure ParameterRange where
  min : ℚ
  max : ℚ
deriving DecidableEq, Repr

/-- The designer's per-quantity constraint collection
(`getConstraintValue` in `src/src/ui/doriDesigner.ts`): the fixed field wins;
otherwise a full min/max range collapses (to the shared value when they are
equal, to the midpoint otherwise); a one-sided range is used as the fixed
value; all-empty yields no constraint.  The result is the single value handed
to the backend — the caller's range is never passed on, so it cannot be
intersected with the derived bound. -/
def getConstraintValue (fixed mn mx : Option ℚ) : Option ℚ :=
  match fixed with
  | some v => some v
  | none =>
      match mn, mx with
      | some lo, some hi => if lo = hi then some lo else some ((lo + hi) / 2)
      | some lo, none => some lo
      | none, some hi => some hi
      | none, none => none

/-- Camera system record (`CameraSystem` in `src/src/core/types.ts`);
pixel counts are integers there because the designer rounds them. -/
structure CameraSystem where
  sensor_width_mm : ℚ
  sensor_height_mm : ℚ
  pixel_width : ℤ
  pixel_height : ℤ
  focal_length_mm : ℚ
  name : Option String
deriving DecidableEq, Repr

/-- FOV result record (`FovResult` in `src/src/core/types.ts`), as stored per
comparison entry. -/
structure FovResult where
  horizontal_fov_deg : ℚ
  vertical_fov_deg : ℚ
  horizontal_fov_m : ℚ
  vertical_fov_m : ℚ
  ppm : ℚ
  gsd_mm : ℚ
  distance_m : ℚ
deriving DecidableEq, Repr

/-- One comparison entry (`CameraWithResult` in `src/src/core/types.ts`). -/
structure CameraWithResult where
  camera : CameraSystem
  result : FovResult
deriving DecidableEq, Repr

/-- Observable store state (`Store` in `src/src/services/store.ts`, also
inlined in `src/src/services/store.test.ts`): the camera-system list plus the
number of subscribed listeners (listeners are opaque callbacks; only how often
each is invoked is observable). -/
structure StoreState where
  cameraSystems : List CameraWithResult
  listeners : ℕ

/-- `Store.updateCameraSystem(index, system)`: replace the element only when
`0 ≤ index < length`, and then notify.  The second component counts how many
times each subscribed listener is invoked by the call (`notifyListeners` runs
each listener once per notification). -/
def updateCameraSystem (s : StoreState) (index : ℤ) (system : CameraWithResult) :
    StoreState × ℕ :=
  if 0 ≤ index ∧ index < (s.cameraSystems.length : ℤ) then
    ({ s with cameraSystems := s.cameraSystems.set index.toNat system }, 1)
  else
    (s, 0)

/-- The designer's ranges record (`DoriParameterRanges` in
`src/src/core/types.ts`), restricted to the five fields the export reads. -/
structure DoriParameterRanges where
  sensor_width_mm : Option ParameterRange
  sensor_height_mm : Option ParameterRange
  pixel_width : Option ParameterRange
  pixel_height : Option ParameterRange
  focal_length_mm : Option ParameterRange

/-- The designer's constraint record (`ParameterConstraint` in
`src/src/core/types.ts`), restricted likewise. -/
structure ParameterConstraint where
  sensor_width_mm : Option ℚ
  sensor_height_mm : Option ℚ
  pixel_width : Option ℚ
  pixel_height : Option ℚ
  focal_length_mm : Option ℚ

/-- `getMidpoint` in `src/src/ui/doriDesigner.ts`: `(min+max)/2`, and `0` for
a null or undefined range. -/
def getMidpoint : Option ParameterRange → ℚ
  | none => 0
  | some r => (r.min + r.max) / 2

/-- JavaScript `a || b` for an optional number `a`: `b` when `a` is undefined
or `0` (both are falsy), else the value of `a`. -/
def jsOr (a : Option ℚ) (b : ℚ) : ℚ :=
  match a with
  | some v => if v = 0 then b else v
  | none => b

/-- JavaScript `v || w` for two numbers: `w` when `v` is `0`. -/
def jsOrVal (v w : ℚ) : ℚ := if v = 0 then w else v

/-- JavaScript `Math.round`: floor of `x + 1/2`, which is Mathlib `round`. -/
def mathRound (x : ℚ) : ℤ := round x

/-- The camera built by `exportToComparison` in `src/src/ui/doriDesigner.ts`
(lines 389–403): each field is the caller constraint, else the midpoint of the
last calculated range; `sensor_height`/`pixel_height` additionally fall back
to a 4:3 aspect value derived from the corresponding width. -/
def buildExportCamera (constraints : ParameterConstraint)
    (ranges : DoriParameterRanges) : CameraSystem :=
  let aspect : ℚ := 4 / 3
  let sensorWidth :=
    jsOr constraints.sensor_width_mm (getMidpoint ranges.sensor_width_mm)
  let pixelWidth :=
    mathRound (jsOr constraints.pixel_width (getMidpoint ranges.pixel_width))
  let sensorHeight :=
    jsOr constraints.sensor_height_mm
      (jsOrVal (getMidpoint ranges.sensor_height_mm) (sensorWidth / aspect))
  let pixelHeight :=
    mathRound (jsOr constraints.pixel_height
      (jsOrVal (getMidpoint ranges.pixel_height) ((pixelWidth : ℚ) / aspect)))
  { sensor_width_mm := sensorWidth
    sensor_height_mm := sensorHeight
    pixel_width := pixelWidth
    pixel_height := pixelHeight
    focal_length_mm :=
      jsOr constraints.focal_length_mm (getMidpoint ranges.focal_length_mm)
    name := none }

/-- The all-positive parameter invariant of an exported configuration
(spec §3 applied to `CameraSystem`). -/
def CameraSystem.allPositive (c : CameraSystem) : Prop :=
  0 < c.sensor_width_mm ∧ 0 < c.sensor_height_mm ∧ 0 < c.pixel_width ∧
    0 < c.pixel_height ∧ 0 < c.focal_length_mm

/-- A constraint record with every field absent. -/
def emptyConstraints : ParameterConstraint :=
  ⟨none, none, none, none, none⟩

/-- A ranges record with every field absent. -/
def emptyRanges : DoriParameterRanges :=
  ⟨none, none, none, none, none⟩

/-- Concrete target set of spec §8 Scenario 3: detection at 100 m and
identification at 10 m. -/
def scenarioTargets : TargetSet :=
  [⟨.detection, 100⟩, ⟨.identification, 10⟩]

/-- Concrete assignment: sensor width fixed at 6.4 mm and pixel width fixed
at 1920 px, everything else Free (spec §8 Scenario 2's fixed set). -/
def scenarioAssignment : Assignment := fun q =>
  match q with
  | .sensorWidth => some (32 / 5)
  | .pixelWidth => some 1920
  | _ => none

/-- Concrete target set with a single identification target at 50 m. -/
def singleTarget : TargetSet := [⟨.identification, 50⟩]

/-- Concrete assignment with a degenerate fixed sensor width of 0 mm and a
positive fixed sensor height, everything else Free. -/
def degenerateAssignment : Assignment := fun q =>
  match q with
  | .sensorWidth => some 0
  | .sensorHeight => some (24 / 5)
  | _ => none

/-! ## Supporting lemmas -/

lemma density_pos (lvl : PerformanceLevel) : 0 < density lvl := by
  cases lvl <;> norm_num [density]

lemma densityR_pos (lvl : PerformanceLevel) : 0 < densityR lvl := by
  cases lvl <;> norm_num [densityR, density]

/-- Collapsing the forward model's round trip through degrees: the tangent of
half the angular field of view is `dimension / (2 * focal)`. -/
lemma tan_half_angularFov (d f : ℝ) :
    Real.tan (degToRad (angularFov d f) / 2) = d / (2 * f) := by
  have hπ : (π : ℝ) ≠ 0 := Real.pi_ne_zero
  have harg : degToRad (angularFov d f) / 2 = Real.arctan (d / (2 * f)) := by
    unfold degToRad angularFov
    field_simp
  rw [harg, Real.tan_arctan]

/-- Closed form of the per-level derived distance:
`pixels * focal / (density * dimension)`. -/
lemma deriveDoriDistance_eq (c : OpticalConfiguration) (axis : Axis)
    (lvl : PerformanceLevel) (hf : c.focal_length_mm ≠ 0)
    (hdim : axisDim c axis ≠ 0) :
    deriveDoriDistance c axis lvl =
      axisPixels c axis * c.focal_length_mm / (densityR lvl * axisDim c axis) := by
  unfold deriveDoriDistance
  rw [tan_half_angularFov]
  have hρ : densityR lvl ≠ 0 := (densityR_pos lvl).ne'
  field_simp
  ring

/-! ## Claims -/

/-- C6: for positive sensor dimension and focal length, `angularFov` lies
strictly between 0° and 180°, is strictly increasing in the sensor dimension
and strictly decreasing in the focal length. -/
theorem C6_angularFov_range_monotone (d dBig f fBig : ℝ) (hd : 0 < d)
    (hf : 0 < f) (hdd : d < dBig) (hff : f < fBig) :
    (0 < angularFov d f ∧ angularFov d f < 180) ∧
      angularFov d f < angularFov dBig f ∧
      angularFov d fBig < angularFov d f := by
  have hπ : (0 : ℝ) < π := Real.pi_pos
  have harc_pos : ∀ {y : ℝ}, 0 < y → 0 < Real.arctan y := by
    intro y hy
    have := Real.arctan_strictMono hy
    simpa [Real.arctan_zero] using this
  have hx : (0 : ℝ) < d / (2 * f) := div_pos hd (by linarith)
  have hmono : ∀ {u v : ℝ}, u < v → angularFov u f < angularFov v f := by
    intro u v huv
    unfold angularFov
    have harc : Real.arctan (u / (2 * f)) < Real.arctan (v / (2 * f)) :=
      Real.arctan_strictMono
        ((div_lt_div_iff_of_pos_right (by linarith)).mpr huv)
    gcongr
  refine ⟨⟨?_, ?_⟩, ?_, ?_⟩
  · unfold angularFov
    have h1 : 0 < 2 * Real.arctan (d / (2 * f)) * 180 := by
      have := harc_pos hx
      nlinarith
    exact div_pos h1 hπ
  · unfold angularFov
    rw [div_lt_iff₀ hπ]
    nlinarith [Real.arctan_lt_pi_div_two (d / (2 * f))]
  · exact hmono hdd
  · unfold angularFov
    have harc : Real.arctan (d / (2 * fBig)) < Real.arctan (d / (2 * f)) :=
      Real.arctan_strictMono
        (div_lt_div_of_pos_left hd (by linarith) (by linarith))
    gcongr

/-- C6 witness: the properties at dimension 36 mm against 37 mm and focal
length 50 mm against 60 mm. -/
theorem C6_angularFov_range_monotone_witness :
    (0 < angularFov 36 50 ∧ angularFov 36 50 < 180) ∧
      angularFov 36 50 < angularFov 37 50 ∧
      angularFov 36 60 < angularFov 36 50 :=
  C6_angularFov_range_monotone 36 37 50 60 (by norm_num) (by norm_num)
    (by norm_num) (by norm_num)

/-- C7: `computeFocalLengthFromFov` inverts `angularFov` exactly on the
claimed parameter box, hence in particular within the 1e-6 relative
tolerance. -/
theorem C7_focal_roundtrip (d f : ℝ) (hd1 : 1 / 10 ≤ d) (hd2 : d ≤ 200)
    (hf1 : 1 / 10 ≤ f) (hf2 : f ≤ 10000) :
    computeFocalLengthFromFov d (angularFov d f) = f ∧
      |computeFocalLengthFromFov d (angularFov d f) - f| ≤ (1 / 1000000) * f := by
  have hd : 0 < d := lt_of_lt_of_le (by norm_num) hd1
  have hf : 0 < f := lt_of_lt_of_le (by norm_num) hf1
  have heq : computeFocalLengthFromFov d (angularFov d f) = f := by
    unfold computeFocalLengthFromFov
    rw [tan_half_angularFov]
    field_simp
    ring
  refine ⟨heq, ?_⟩
  rw [heq]
  simp only [sub_self, abs_zero]
  positivity

/-- C7 witness: the round trip at sensor dimension 36 mm, focal length
50 mm. -/
theorem C7_focal_roundtrip_witness :
    computeFocalLengthFromFov 36 (angularFov 36 50) = 50 ∧
      |computeFocalLengthFromFov 36 (angularFov 36 50) - 50| ≤
        (1 / 1000000) * 50 :=
  C7_focal_roundtrip 36 50 (by norm_num) (by norm_num) (by norm_num)
    (by norm_num)

/-- C5: for every valid configuration the four derived DORI distances are
strictly decreasing from detection to identification. -/
theorem C5_dori_distances_strictly_ordered (c : OpticalConfiguration)
    (axis : Axis) (h : c.valid) :
    (deriveDoriDistances c axis).detection_m >
        (deriveDoriDistances c axis).observation_m ∧
      (deriveDoriDistances c axis).observation_m >
        (deriveDoriDistances c axis).recognition_m ∧
      (deriveDoriDistances c axis).recognition_m >
        (deriveDoriDistances c axis).identification_m := by
  obtain ⟨hsw, hsh, hpw, hph, hfl⟩ := h
  have hdim : 0 < axisDim c axis := by cases axis <;> assumption
  have hpx : 0 < axisPixels c axis := by cases axis <;> assumption
  have hstep : ∀ l₁ l₂ : PerformanceLevel, densityR l₁ < densityR l₂ →
      deriveDoriDistance c axis l₂ < deriveDoriDistance c axis l₁ := by
    intro l₁ l₂ hlt
    rw [deriveDoriDistance_eq c axis l₁ hfl.ne' hdim.ne',
      deriveDoriDistance_eq c axis l₂ hfl.ne' hdim.ne']
    exact div_lt_div_of_pos_left (mul_pos hpx hfl)
      (mul_pos (densityR_pos l₁) hdim)
      (mul_lt_mul_of_pos_right hlt hdim)
  refine ⟨hstep _ _ ?_, hstep _ _ ?_, hstep _ _ ?_⟩ <;>
    norm_num [densityR, density]

/-- C5 witness: the ordering for a full-frame 36×24 mm, 6000×4000 px, 50 mm
configuration along the horizontal axis. -/
theorem C5_dori_distances_strictly_ordered_witness :
    (deriveDoriDistances ⟨36, 24, 6000, 4000, 50⟩ .horizontal).detection_m >
        (deriveDoriDistances ⟨36, 24, 6000, 4000, 50⟩ .horizontal).observation_m ∧
      (deriveDoriDistances ⟨36, 24, 6000, 4000, 50⟩ .horizontal).observation_m >
        (deriveDoriDistances ⟨36, 24, 6000, 4000, 50⟩ .horizontal).recognition_m ∧
      (deriveDoriDistances ⟨36, 24, 6000, 4000, 50⟩ .horizontal).recognition_m >
        (deriveDoriDistances ⟨36, 24, 6000, 4000, 50⟩ .horizontal).identification_m :=
  C5_dori_distances_strictly_ordered ⟨36, 24, 6000, 4000, 50⟩ .horizontal
    ⟨by norm_num, by norm_num, by norm_num, by norm_num, by norm_num⟩

/-- C4: the DORI Translator is the exact algebraic identity
`distance_B = distance_A * (density_A / density_B)` with the constant density
table 25, 62.5, 125, 250 px/m, and it agrees exactly with the forward model:
feeding it the derived distance for level A reproduces the derived distance
for every level B. -/
theorem C4_translator_exact_identity (c : OpticalConfiguration) (axis : Axis)
    (A B : PerformanceLevel) (h : c.valid) :
    (computeDoriFromSingleDistance (deriveDoriDistance c axis A) A).get B =
        deriveDoriDistance c axis B ∧
      (∀ dist : ℝ, (computeDoriFromSingleDistance dist A).get B =
        dist * (densityR A / densityR B)) ∧
      densityR .detection = 25 ∧ densityR .observation = 62.5 ∧
      densityR .recognition = 125 ∧ densityR .identification = 250 := by
  obtain ⟨hsw, hsh, hpw, hph, hfl⟩ := h
  have hdim : 0 < axisDim c axis := by cases axis <;> assumption
  have hget : ∀ dist : ℝ, (computeDoriFromSingleDistance dist A).get B =
      dist * (densityR A / densityR B) := by
    intro dist
    cases B <;> simp [computeDoriFromSingleDistance, DoriDistances.get]
  refine ⟨?_, hget, ?_, ?_, ?_, ?_⟩
  · rw [hget, deriveDoriDistance_eq c axis A hfl.ne' hdim.ne',
      deriveDoriDistance_eq c axis B hfl.ne' hdim.ne']
    have hA : densityR A ≠ 0 := (densityR_pos A).ne'
    have hB : densityR B ≠ 0 := (densityR_pos B).ne'
    field_simp
    ring
  all_goals norm_num [densityR, density]

/-- C4 witness: the identity at the full-frame configuration, translating
from detection to identification. -/
theorem C4_translator_exact_identity_witness :
    (computeDoriFromSingleDistance
        (deriveDoriDistance ⟨36, 24, 6000, 4000, 50⟩ .horizontal .detection)
        .detection).get .identification =
      deriveDoriDistance ⟨36, 24, 6000, 4000, 50⟩ .horizontal .identification ∧
      (∀ dist : ℝ,
        (computeDoriFromSingleDistance dist .detection).get .identification =
          dist * (densityR .detection / densityR .identification)) ∧
      densityR .detection = 25 ∧ densityR .observation = 62.5 ∧
      densityR .recognition = 125 ∧ densityR .identification = 250 :=
  C4_translator_exact_identity ⟨36, 24, 6000, 4000, 50⟩ .horizontal
    .detection .identification
    ⟨by norm_num, by norm_num, by norm_num, by norm_num, by norm_num⟩

/-- C2: a caller-supplied min/max range collapses to its midpoint before the
resolver runs — `(min+max)/2` for a full range (which is the shared value when
min = max), the single supplied endpoint for a one-sided range — and a fixed
value takes priority; the range itself never reaches the resolver. -/
theorem C2_constraint_midpoint_collapse (fixed lo hi : ℚ) :
    getConstraintValue none (some lo) (some hi) = some ((lo + hi) / 2) ∧
      getConstraintValue none (some lo) none = some lo ∧
      getConstraintValue none none (some hi) = some hi ∧
      getConstraintValue (some fixed) (some lo) (some hi) = some fixed := by
  refine ⟨?_, rfl, rfl, rfl⟩
  by_cases h : lo = hi
  · subst h
    simp only [getConstraintValue, if_pos rfl]
    exact congrArg some (by ring)
  · simp [getConstraintValue, h]

/-- C9: `Store.updateCameraSystem` with an index outside `[0, length)` leaves
the list unchanged and performs no notification; an in-bounds index replaces
exactly the addressed element, keeps the length and the subscriber list, and
notifies each subscribed listener exactly once. -/
theorem C9_updateCameraSystem_bounds (s : StoreState) (index : ℤ)
    (sys : CameraWithResult) :
    (¬ (0 ≤ index ∧ index < (s.cameraSystems.length : ℤ)) →
        updateCameraSystem s index sys = (s, 0)) ∧
      ((0 ≤ index ∧ index < (s.cameraSystems.length : ℤ)) →
        (updateCameraSystem s index sys).2 = 1 ∧
        (updateCameraSystem s index sys).1.listeners = s.listeners ∧
        (updateCameraSystem s index sys).1.cameraSystems.length =
          s.cameraSystems.length ∧
        (updateCameraSystem s index sys).1.cameraSystems[index.toNat]? =
          some sys ∧
        ∀ j : ℕ, j ≠ index.toNat →
          (updateCameraSystem s index sys).1.cameraSystems[j]? =
            s.cameraSystems[j]?) := by
  constructor
  · intro h
    simp [updateCameraSystem, h]
  · intro h
    have hlt : index.toNat < s.cameraSystems.length := by omega
    refine ⟨?_, ?_, ?_, ?_, ?_⟩
    · simp [updateCameraSystem, h]
    · simp [updateCameraSystem, h]
    · simp [updateCameraSystem, h]
    · simp only [updateCameraSystem, if_pos h]
      exact List.getElem?_set_eq_of_lt sys hlt
    · intro j hj
      simp only [updateCameraSystem, if_pos h]
      exact List.getElem?_set_ne (by omega)

/-- C9 witness: with one stored system and two listeners, index 5 is a no-op
with no notification, and index 0 replaces the element and notifies once. -/
theorem C9_updateCameraSystem_bounds_witness :
    updateCameraSystem ⟨[⟨⟨36, 24, 6000, 4000, 50, none⟩,
        ⟨1, 1, 1, 1, 1, 1, 1⟩⟩], 2⟩ 5 ⟨⟨1, 1, 1, 1, 1, none⟩,
        ⟨2, 2, 2, 2, 2, 2, 2⟩⟩ =
      (⟨[⟨⟨36, 24, 6000, 4000, 50, none⟩, ⟨1, 1, 1, 1, 1, 1, 1⟩⟩], 2⟩, 0) ∧
      (updateCameraSystem ⟨[⟨⟨36, 24, 6000, 4000, 50, none⟩,
        ⟨1, 1, 1, 1, 1, 1, 1⟩⟩], 2⟩ 0 ⟨⟨1, 1, 1, 1, 1, none⟩,
        ⟨2, 2, 2, 2, 2, 2, 2⟩⟩).2 = 1 :=
  ⟨(C9_updateCameraSystem_bounds ⟨[⟨⟨36, 24, 6000, 4000, 50, none⟩,
      ⟨1, 1, 1, 1, 1, 1, 1⟩⟩], 2⟩ 5 ⟨⟨1, 1, 1, 1, 1, none⟩,
      ⟨2, 2, 2, 2, 2, 2, 2⟩⟩).1 (by decide),
    ((C9_updateCameraSystem_bounds ⟨[⟨⟨36, 24, 6000, 4000, 50, none⟩,
      ⟨1, 1, 1, 1, 1, 1, 1⟩⟩], 2⟩ 0 ⟨⟨1, 1, 1, 1, 1, none⟩,
      ⟨2, 2, 2, 2, 2, 2, 2⟩⟩).2 (by decide)).1⟩

/-- C10: a tunable quantity with neither a caller constraint nor a calculated
range is exported as 0 (since `getMidpoint` maps a missing range to 0); only
the height fields fall back to a 4:3 aspect value instead; in particular the
all-absent export violates the all-positive invariant and is still built. -/
theorem C10_export_zero_fallback (cst : ParameterConstraint)
    (rng : DoriParameterRanges) :
    getMidpoint none = (0 : ℚ) ∧
      (cst.sensor_width_mm = none → rng.sensor_width_mm = none →
        (buildExportCamera cst rng).sensor_width_mm = 0) ∧
      (cst.pixel_width = none → rng.pixel_width = none →
        (buildExportCamera cst rng).pixel_width = 0) ∧
      (cst.focal_length_mm = none → rng.focal_length_mm = none →
        (buildExportCamera cst rng).focal_length_mm = 0) ∧
      (cst.sensor_height_mm = none → rng.sensor_height_mm = none →
        (buildExportCamera cst rng).sensor_height_mm =
          (buildExportCamera cst rng).sensor_width_mm / (4 / 3)) ∧
      (cst.pixel_height = none → rng.pixel_height = none →
        (buildExportCamera cst rng).pixel_height =
          mathRound (((buildExportCamera cst rng).pixel_width : ℚ) / (4 / 3))) ∧
      ¬ (buildExportCamera emptyConstraints emptyRanges).allPositive := by
  refine ⟨rfl, ?_, ?_, ?_, ?_, ?_, ?_⟩
  · intro h1 h2
    simp [buildExportCamera, jsOr, jsOrVal, getMidpoint, h1, h2]
  · intro h1 h2
    simp [buildExportCamera, jsOr, jsOrVal, getMidpoint, mathRound, h1, h2]
  · intro h1 h2
    simp [buildExportCamera, jsOr, jsOrVal, getMidpoint, h1, h2]
  · intro h1 h2
    simp [buildExportCamera, jsOr, jsOrVal, getMidpoint, h1, h2]
  · intro h1 h2
    simp [buildExportCamera, jsOr, jsOrVal, getMidpoint, h1, h2]
  · intro hpos
    obtain ⟨hw, -, -, -, -⟩ := hpos
    simp [buildExportCamera, emptyConstraints, emptyRanges, jsOr, jsOrVal,
      getMidpoint] at hw

/-! ## Numeric bounds for the arctangent (for the concrete scenario C8) -/

lemma poly_le_inv_one_add_sq (t : ℝ) :
    1 - t ^ 2 + t ^ 4 - t ^ 6 ≤ (1 + t ^ 2)⁻¹ := by
  have hb : (0 : ℝ) < 1 + t ^ 2 := by positivity
  rw [inv_eq_one_div, le_div_iff₀ hb]
  nlinarith [pow_nonneg (sq_nonneg t) 4]

lemma inv_one_add_sq_le_poly (t : ℝ) :
    (1 + t ^ 2)⁻¹ ≤ 1 - t ^ 2 + t ^ 4 - t ^ 6 + t ^ 8 := by
  have hb : (0 : ℝ) < 1 + t ^ 2 := by positivity
  rw [inv_eq_one_div, div_le_iff₀ hb]
  nlinarith [pow_nonneg (sq_nonneg t) 5]

lemma integral_poly_seven (x : ℝ) :
    (∫ t in (0 : ℝ)..x, (1 - t ^ 2 + t ^ 4 - t ^ 6)) =
      x - x ^ 3 / 3 + x ^ 5 / 5 - x ^ 7 / 7 := by
  have hderiv : ∀ t ∈ Set.uIcc (0 : ℝ) x,
      HasDerivAt (fun s : ℝ => s - s ^ 3 / 3 + s ^ 5 / 5 - s ^ 7 / 7)
        (1 - t ^ 2 + t ^ 4 - t ^ 6) t := by
    intro t _
    have h := (((hasDerivAt_id t).sub ((hasDerivAt_pow 3 t).div_const 3)).add
      ((hasDerivAt_pow 5 t).div_const 5)).sub ((hasDerivAt_pow 7 t).div_const 7)
    convert h using 1
    push_cast
    ring
  have hint : IntervalIntegrable (fun t : ℝ => 1 - t ^ 2 + t ^ 4 - t ^ 6)
      MeasureTheory.volume 0 x := by
    apply Continuous.intervalIntegrable
    continuity
  rw [intervalIntegral.integral_eq_sub_of_hasDerivAt hderiv hint]
  norm_num

lemma integral_poly_nine (x : ℝ) :
    (∫ t in (0 : ℝ)..x, (1 - t ^ 2 + t ^ 4 - t ^ 6 + t ^ 8)) =
      x - x ^ 3 / 3 + x ^ 5 / 5 - x ^ 7 / 7 + x ^ 9 / 9 := by
  have hderiv : ∀ t ∈ Set.uIcc (0 : ℝ) x,
      HasDerivAt
        (fun s : ℝ => s - s ^ 3 / 3 + s ^ 5 / 5 - s ^ 7 / 7 + s ^ 9 / 9)
        (1 - t ^ 2 + t ^ 4 - t ^ 6 + t ^ 8) t := by
    intro t _
    have h := ((((hasDerivAt_id t).sub ((hasDerivAt_pow 3 t).div_const 3)).add
      ((hasDerivAt_pow 5 t).div_const 5)).sub
        ((hasDerivAt_pow 7 t).div_const 7)).add
          ((hasDerivAt_pow 9 t).div_const 9)
    convert h using 1
    push_cast
    ring
  have hint : IntervalIntegrable
      (fun t : ℝ => 1 - t ^ 2 + t ^ 4 - t ^ 6 + t ^ 8)
      MeasureTheory.volume 0 x := by
    apply Continuous.intervalIntegrable
    continuity
  rw [intervalIntegral.integral_eq_sub_of_hasDerivAt hderiv hint]
  norm_num

lemma arctan_as_integral (x : ℝ) :
    Real.arctan x = ∫ t in (0 : ℝ)..x, (1 + t ^ 2)⁻¹ := by
  have key := integral_inv_one_add_sq (a := (0 : ℝ)) (b := x)
  simp only [Nat.cast_one, Real.arctan_zero, sub_zero] at key
  exact key.symm

lemma inv_one_add_sq_intervalIntegrable (x : ℝ) :
    IntervalIntegrable (fun t : ℝ => (1 + t ^ 2)⁻¹)
      MeasureTheory.volume 0 x := by
  apply Continuous.intervalIntegrable
  have h : ∀ t : ℝ, (1 + t ^ 2) ≠ 0 := fun t => by positivity
  exact (continuous_const.add (continuous_pow 2)).inv₀ h

/-- Alternating-series lower bound of the arctangent on the nonnegative
reals. -/
lemma arctan_ge_poly (x : ℝ) (hx : 0 ≤ x) :
    x - x ^ 3 / 3 + x ^ 5 / 5 - x ^ 7 / 7 ≤ Real.arctan x := by
  rw [arctan_as_integral, ← integral_poly_seven x]
  apply intervalIntegral.integral_mono_on hx ?_
    (inv_one_add_sq_intervalIntegrable x)
  · intro t _
    exact poly_le_inv_one_add_sq t
  · apply Continuous.intervalIntegrable
    continuity

/-- Alternating-series upper bound of the arctangent on the nonnegative
reals. -/
lemma arctan_le_poly (x : ℝ) (hx : 0 ≤ x) :
    Real.arctan x ≤ x - x ^ 3 / 3 + x ^ 5 / 5 - x ^ 7 / 7 + x ^ 9 / 9 := by
  rw [arctan_as_integral, ← integral_poly_nine x]
  apply intervalIntegral.integral_mono_on hx
    (inv_one_add_sq_intervalIntegrable x) ?_
  · intro t _
    exact inv_one_add_sq_le_poly t
  · apply Continuous.intervalIntegrable
    continuity

lemma computeFov_horizontal_fov_deg (c : OpticalConfiguration) (dmm : ℝ) :
    (computeFov c dmm).horizontal_fov_deg =
      angularFov c.sensor_width_mm c.focal_length_mm := rfl

lemma computeFov_vertical_fov_deg (c : OpticalConfiguration) (dmm : ℝ) :
    (computeFov c dmm).vertical_fov_deg =
      angularFov c.sensor_height_mm c.focal_length_mm := rfl

lemma computeFov_horizontal_coverage_m (c : OpticalConfiguration) (dmm : ℝ) :
    (computeFov c dmm).horizontal_coverage_m =
      linearCoverage (angularFov c.sensor_width_mm c.focal_length_mm) dmm /
        1000 := rfl

lemma computeFov_horizontal_density (c : OpticalConfiguration) (dmm : ℝ) :
    (computeFov c dmm).horizontal_density =
      pixelDensity c.pixel_width
        (linearCoverage (angularFov c.sensor_width_mm c.focal_length_mm) dmm /
          1000) := rfl

lemma computeFov_ground_sample_distance (c : OpticalConfiguration)
    (dmm : ℝ) :
    (computeFov c dmm).ground_sample_distance =
      groundSampleDistance
        (linearCoverage (angularFov c.sensor_width_mm c.focal_length_mm) dmm)
        c.pixel_width := rfl

/-- C8: the spec §8 Scenario 1 values for a 36×24 mm, 6000×4000 px, 50 mm
configuration at 5000 mm: horizontal FOV ≈ 39.60°, vertical FOV ≈ 26.99°
(both within 0.005°), horizontal coverage exactly 3.600 m, horizontal pixel
density within 0.05 of 1666.7 px/m, and ground sample distance exactly
0.6 mm/pixel. -/
theorem C8_scenario1_values :
    |(computeFov ⟨36, 24, 6000, 4000, 50⟩ 5000).horizontal_fov_deg - 39.60| <
        0.005 ∧
      |(computeFov ⟨36, 24, 6000, 4000, 50⟩ 5000).vertical_fov_deg - 26.99| <
        0.005 ∧
      (computeFov ⟨36, 24, 6000, 4000, 50⟩ 5000).horizontal_coverage_m = 3.6 ∧
      |(computeFov ⟨36, 24, 6000, 4000, 50⟩ 5000).horizontal_density -
        1666.7| < 0.05 ∧
      (computeFov ⟨36, 24, 6000, 4000, 50⟩ 5000).ground_sample_distance =
        0.6 := by
  have hπ1 : (3.141592 : ℝ) < π := Real.pi_gt_3141592
  have hπ2 : π < 3.141593 := Real.pi_lt_3141593
  have hπ0 : (0 : ℝ) < π := Real.pi_pos
  have htanH : Real.tan (degToRad (angularFov 36 50) / 2) = 9 / 25 := by
    rw [tan_half_angularFov]
    norm_num
  have hAH_lo : (0.34554537 : ℝ) ≤ Real.arctan (9 / 25) := by
    have h := arctan_ge_poly (9 / 25) (by norm_num)
    have hnum : (0.34554537 : ℝ) ≤
        (9 / 25 : ℝ) - (9 / 25) ^ 3 / 3 + (9 / 25) ^ 5 / 5 -
          (9 / 25) ^ 7 / 7 := by
      norm_num
    linarith
  have hAH_hi : Real.arctan (9 / 25) ≤ (0.34555667 : ℝ) := by
    have h := arctan_le_poly (9 / 25) (by norm_num)
    have hnum : (9 / 25 : ℝ) - (9 / 25) ^ 3 / 3 + (9 / 25) ^ 5 / 5 -
        (9 / 25) ^ 7 / 7 + (9 / 25) ^ 9 / 9 ≤ (0.34555667 : ℝ) := by
      norm_num
    linarith
  have hAV_lo : (0.23554470 : ℝ) ≤ Real.arctan (6 / 25) := by
    have h := arctan_ge_poly (6 / 25) (by norm_num)
    have hnum : (0.23554470 : ℝ) ≤
        (6 / 25 : ℝ) - (6 / 25) ^ 3 / 3 + (6 / 25) ^ 5 / 5 -
          (6 / 25) ^ 7 / 7 := by
      norm_num
    linarith
  have hAV_hi : Real.arctan (6 / 25) ≤ (0.23554500 : ℝ) := by
    have h := arctan_le_poly (6 / 25) (by norm_num)
    have hnum : (6 / 25 : ℝ) - (6 / 25) ^ 3 / 3 + (6 / 25) ^ 5 / 5 -
        (6 / 25) ^ 7 / 7 + (6 / 25) ^ 9 / 9 ≤ (0.23554500 : ℝ) := by
      norm_num
    linarith
  refine ⟨?_, ?_, ?_, ?_, ?_⟩
  · rw [computeFov_horizontal_fov_deg]
    show |angularFov 36 50 - 39.60| < 0.005
    unfold angularFov
    norm_num only
    rw [abs_lt]
    constructor
    · have hgoal : (39.595 : ℝ) < 2 * Real.arctan (9 / 25) * 180 / π := by
        rw [lt_div_iff₀ hπ0]
        nlinarith
      linarith
    · have hgoal : 2 * Real.arctan (9 / 25) * 180 / π < (39.605 : ℝ) := by
        rw [div_lt_iff₀ hπ0]
        nlinarith
      linarith
  · rw [computeFov_vertical_fov_deg]
    show |angularFov 24 50 - 26.99| < 0.005
    unfold angularFov
    norm_num only
    rw [abs_lt]
    constructor
    · have hgoal : (26.985 : ℝ) < 2 * Real.arctan (6 / 25) * 180 / π := by
        rw [lt_div_iff₀ hπ0]
        nlinarith
      linarith
    · have hgoal : 2 * Real.arctan (6 / 25) * 180 / π < (26.995 : ℝ) := by
        rw [div_lt_iff₀ hπ0]
        nlinarith
      linarith
  · rw [computeFov_horizontal_coverage_m]
    show linearCoverage (angularFov 36 50) 5000 / 1000 = 3.6
    unfold linearCoverage
    rw [htanH]
    norm_num
  · rw [computeFov_horizontal_density]
    show |pixelDensity 6000
        (linearCoverage (angularFov 36 50) 5000 / 1000) - 1666.7| < 0.05
    unfold pixelDensity linearCoverage
    rw [htanH]
    rw [abs_lt]
    constructor <;> norm_num
  · rw [computeFov_ground_sample_distance]
    show groundSampleDistance (linearCoverage (angularFov 36 50) 5000) 6000 =
      0.6
    unfold groundSampleDistance linearCoverage
    rw [htanH]
    norm_num

/-! ## Resolver lemmas -/

lemma neutralDefault_pos (q : Quantity) : 0 < neutralDefault q := by
  cases q <;> norm_num [neutralDefault]

lemma not_tighter_self (q : Quantity) (x : ℚ) : ¬ tighter q x x := by
  cases hb : boundDir q <;> simp only [tighter, hb] <;> exact lt_irrefl x

lemma not_tighter_trans (q : Quantity) {x y z : ℚ} (h1 : ¬ tighter q x y)
    (h2 : ¬ tighter q y z) : ¬ tighter q x z := by
  cases hb : boundDir q <;> simp only [tighter, hb] at h1 h2 ⊢ <;>
    · intro hcon
      push_neg at h1 h2
      linarith

lemma not_tighter_rev (q : Quantity) {u v : ℚ} (h : tighter q u v ∨ u = v) :
    ¬ tighter q v u := by
  cases hb : boundDir q <;> simp only [tighter, hb] at h ⊢ <;>
    · intro hcon
      rcases h with h | h <;> linarith [h]

lemma selectBest_mem (q : Quantity) :
    ∀ (l : List (PerformanceLevel × ℚ)) (best : PerformanceLevel × ℚ),
      selectBest q best l = best ∨ selectBest q best l ∈ l := by
  intro l
  induction l with
  | nil => intro best; exact Or.inl rfl
  | cons c rest ih =>
      intro best
      simp only [selectBest]
      by_cases hP : tighter q c.2 best.2 ∨
          (c.2 = best.2 ∧ canonicalIdx c.1 < canonicalIdx best.1)
      · rw [if_pos hP]
        rcases ih c with h | h
        · exact Or.inr (by rw [h]; exact List.mem_cons_self _ _)
        · exact Or.inr (List.mem_cons_of_mem _ h)
      · rw [if_neg hP]
        rcases ih best with h | h
        · exact Or.inl h
        · exact Or.inr (List.mem_cons_of_mem _ h)

lemma selectBest_not_tighter (q : Quantity) :
    ∀ (l : List (PerformanceLevel × ℚ)) (best x : PerformanceLevel × ℚ),
      x ∈ best :: l → ¬ tighter q x.2 (selectBest q best l).2 := by
  intro l
  induction l with
  | nil =>
      intro best x hx
      rw [List.mem_singleton] at hx
      subst hx
      exact not_tighter_self q _
  | cons c rest ih =>
      intro best x hx
      simp only [selectBest]
      by_cases hP : tighter q c.2 best.2 ∨
          (c.2 = best.2 ∧ canonicalIdx c.1 < canonicalIdx best.1)
      · rw [if_pos hP]
        rcases List.mem_cons.mp hx with hx1 | hx2
        · have hPor : tighter q c.2 best.2 ∨ c.2 = best.2 := by
            rcases hP with h | h
            · exact Or.inl h
            · exact Or.inr h.1
          have hbc : ¬ tighter q best.2 c.2 := not_tighter_rev q hPor
          rw [hx1]
          exact not_tighter_trans q hbc (ih c c (List.mem_cons_self _ _))
        · rcases List.mem_cons.mp hx2 with hx3 | hx4
          · rw [hx3]
            exact ih c c (List.mem_cons_self _ _)
          · exact ih c x (List.mem_cons_of_mem _ hx4)
      · rw [if_neg hP]
        rcases List.mem_cons.mp hx with hx1 | hx2
        · rw [hx1]
          exact ih best best (List.mem_cons_self _ _)
        · rcases List.mem_cons.mp hx2 with hx3 | hx4
          · have hcb : ¬ tighter q c.2 best.2 := fun hc => hP (Or.inl hc)
            rw [hx3]
            exact not_tighter_trans q hcb (ih best best (List.mem_cons_self _ _))
          · exact ih best x (List.mem_cons_of_mem _ hx4)

/-- The selected best candidate always originates from one of the targets. -/
lemma selectBest_exists_source (q : Quantity) (t : Target) (rest : List Target)
    (a : Assignment) :
    ∃ u ∈ t :: rest,
      selectBest q (t.level, derivedBound a q t)
          (rest.map fun v => (v.level, derivedBound a q v)) =
        (u.level, derivedBound a q u) := by
  rcases selectBest_mem q (rest.map fun v => (v.level, derivedBound a q v))
      (t.level, derivedBound a q t) with h | h
  · exact ⟨t, List.mem_cons_self _ _, h⟩
  · obtain ⟨u, hu, hx⟩ := List.mem_map.mp h
    exact ⟨u, List.mem_cons_of_mem _ hu, hx.symm⟩

/-- Each derived bound is strictly positive when the target distance and the
held values entering it are. -/
lemma derivedBound_pos (a : Assignment) (q : Quantity) (t : Target)
    (hd : 0 < t.distance_m) (hv : ∀ q' ∈ needed q, 0 < valueOf a q') :
    0 < derivedBound a q t := by
  have hρ := density_pos t.level
  cases q
  case sensorWidth =>
    have h1 : 0 < valueOf a .pixelWidth := hv _ (by simp [needed])
    have h2 : 0 < valueOf a .focalLength := hv _ (by simp [needed])
    exact div_pos (mul_pos h1 h2) (mul_pos hρ hd)
  case sensorHeight =>
    have h1 : 0 < valueOf a .pixelHeight := hv _ (by simp [needed])
    have h2 : 0 < valueOf a .focalLength := hv _ (by simp [needed])
    exact div_pos (mul_pos h1 h2) (mul_pos hρ hd)
  case pixelWidth =>
    have h1 : 0 < valueOf a .sensorWidth := hv _ (by simp [needed])
    have h2 : 0 < valueOf a .focalLength := hv _ (by simp [needed])
    exact div_pos (mul_pos (mul_pos hρ hd) h1) h2
  case pixelHeight =>
    have h1 : 0 < valueOf a .sensorHeight := hv _ (by simp [needed])
    have h2 : 0 < valueOf a .focalLength := hv _ (by simp [needed])
    exact div_pos (mul_pos (mul_pos hρ hd) h1) h2
  case focalLength =>
    have h1 : 0 < valueOf a .sensorWidth := hv _ (by simp [needed])
    have h2 : 0 < valueOf a .pixelWidth := hv _ (by simp [needed])
    exact div_pos (mul_pos (mul_pos hρ hd) h1) h2
  case horizontalFov =>
    have h1 : 0 < valueOf a .pixelWidth := hv _ (by simp [needed])
    exact div_pos h1 (mul_pos (mul_pos two_pos hρ) hd)

/-- On positive inputs the per-quantity resolver succeeds, its reported bound
is one of the per-target derived bounds, the reported limiting level is the
level of the target that produced it, and no target's derived bound is
strictly tighter. -/
lemma resolveQuantity_ok (ts : TargetSet) (a : Assignment) (q : Quantity)
    (hne : ts ≠ []) (hd : ∀ t ∈ ts, 0 < t.distance_m)
    (hv : ∀ q' ∈ needed q, 0 < valueOf a q') :
    ∃ r : RangeResult, resolveQuantity ts a q = .ok r ∧
      (∃ t ∈ ts, t.level = r.limiting ∧ derivedBound a q t = r.bound) ∧
      ∀ t ∈ ts, ¬ tighter q (derivedBound a q t) r.bound := by
  cases ts with
  | nil => exact absurd rfl hne
  | cons t rest =>
      have hA : ¬ ((t :: rest).any fun u => decide (u.distance_m ≤ 0)) = true := by
        simp only [List.any_eq_true, decide_eq_true_eq]
        push_neg
        exact hd
      have hB : ¬ ((needed q).any fun q' => decide (valueOf a q' ≤ 0)) = true := by
        simp only [List.any_eq_true, decide_eq_true_eq]
        push_neg
        exact hv
      refine ⟨⟨(selectBest q (t.level, derivedBound a q t)
          (rest.map fun v => (v.level, derivedBound a q v))).2,
        (selectBest q (t.level, derivedBound a q t)
          (rest.map fun v => (v.level, derivedBound a q v))).1⟩, ?_, ?_, ?_⟩
      · simp only [resolveQuantity]
        rw [if_neg hA, if_neg hB]
      · obtain ⟨u, hu, heq⟩ := selectBest_exists_source q t rest a
        exact ⟨u, hu, by rw [heq], by rw [heq]⟩
      · intro u hu
        apply selectBest_not_tighter q
          (rest.map fun v => (v.level, derivedBound a q v))
          (t.level, derivedBound a q t) (u.level, derivedBound a q u)
        rcases List.mem_cons.mp hu with hu | hu
        · subst hu
          exact List.mem_cons_self _ _
        · exact List.mem_cons_of_mem _
            (List.mem_map_of_mem (fun v => (v.level, derivedBound a q v)) hu)

/-- A successful per-quantity resolution never reports a bound of 0 (nor a
negative one): the degenerate cases are turned into errors first. -/
lemma resolveQuantity_ok_pos (ts : TargetSet) (a : Assignment) (q : Quantity)
    (r : RangeResult) (h : resolveQuantity ts a q = .ok r) : 0 < r.bound := by
  cases ts with
  | nil => simp [resolveQuantity] at h
  | cons t rest =>
      simp only [resolveQuantity] at h
      split_ifs at h with hA hB
      · simp only [Except.ok.injEq] at h
        have hd : ∀ u ∈ t :: rest, 0 < u.distance_m := by
          intro u hu
          by_contra hle
          push_neg at hle
          apply hA
          simp only [List.any_eq_true, decide_eq_true_eq]
          exact ⟨u, hu, hle⟩
        have hv : ∀ q' ∈ needed q, 0 < valueOf a q' := by
          intro q' hq'
          by_contra hle
          push_neg at hle
          apply hB
          simp only [List.any_eq_true, decide_eq_true_eq]
          exact ⟨q', hq', hle⟩
        obtain ⟨u, hu, heq⟩ := selectBest_exists_source q t rest a
        rw [← h, heq]
        exact derivedBound_pos a q u (hd u hu) hv

/-- The batch result carries the per-quantity resolution for every Free
quantity. -/
lemma mem_computeDoriRanges (ts : TargetSet) (a : Assignment) (q : Quantity)
    (hq : a q = none) :
    (q, resolveQuantity ts a q) ∈ computeDoriRanges ts a := by
  unfold computeDoriRanges
  apply List.mem_map_of_mem
  apply List.mem_filter.mpr
  refine ⟨?_, by simp [hq]⟩
  cases q <;> simp [allQuantities]

/-- C1: on a target set of one to four positive-distance targets and a
partial assignment of positive Fixed values, every Free quantity's result
carries the numerically tightest of the per-target derived bounds, labelled
with the performance level whose target produced it. -/
theorem C1_resolver_tightest_bound (ts : TargetSet) (a : Assignment)
    (q : Quantity) (hne : ts ≠ []) (hlen : ts.length ≤ 4)
    (hd : ∀ t ∈ ts, 0 < t.distance_m)
    (ha : ∀ q' v, a q' = some v → 0 < v) (hq : a q = none) :
    ∃ r : RangeResult,
      (q, Except.ok r) ∈ computeDoriRanges ts a ∧
        (∃ t ∈ ts, t.level = r.limiting ∧ derivedBound a q t = r.bound) ∧
        ∀ t ∈ ts, ¬ tighter q (derivedBound a q t) r.bound := by
  have hv : ∀ q' ∈ needed q, 0 < valueOf a q' := by
    intro q' _
    unfold valueOf
    cases hval : a q' with
    | none => simpa [hval] using neutralDefault_pos q'
    | some v => simpa [hval] using ha q' v hval
  obtain ⟨r, hok, hsrc, htight⟩ := resolveQuantity_ok ts a q hne hd hv
  refine ⟨r, ?_, hsrc, htight⟩
  have hmem := mem_computeDoriRanges ts a q hq
  rwa [hok] at hmem

/-- C1 witness: with targets {detection: 100 m, identification: 10 m},
sensor width and pixel width fixed, the Free focal length receives the
tightest derived bound and the level that produced it. -/
theorem C1_resolver_tightest_bound_witness :
    ∃ r : RangeResult,
      (Quantity.focalLength, Except.ok r) ∈
          computeDoriRanges scenarioTargets scenarioAssignment ∧
        (∃ t ∈ scenarioTargets, t.level = r.limiting ∧
          derivedBound scenarioAssignment .focalLength t = r.bound) ∧
        ∀ t ∈ scenarioTargets,
          ¬ tighter .focalLength
            (derivedBound scenarioAssignment .focalLength t) r.bound :=
  C1_resolver_tightest_bound scenarioTargets scenarioAssignment .focalLength
    (by simp [scenarioTargets]) (by simp [scenarioTargets]) (by decide)
    (by intro q' v h
        cases q' <;> simp [scenarioAssignment] at h <;> simp [← h])
    rfl

/-- C3: a DegenerateGeometry failure for one Free quantity is recorded as a
structured error for that quantity alone; the batch still carries the result
of every other Free quantity, and any successful result has a strictly
positive bound — never a silently substituted 0. -/
theorem C3_resolver_failure_isolation (ts : TargetSet) (a : Assignment)
    (q q' : Quantity) (hq : a q = none) (hq' : a q' = none) (hne : q ≠ q')
    (herr : resolveQuantity ts a q = .error .degenerateGeometry) :
    (q, Except.error DoriError.degenerateGeometry) ∈ computeDoriRanges ts a ∧
      (q', resolveQuantity ts a q') ∈ computeDoriRanges ts a ∧
      ∀ r : RangeResult, resolveQuantity ts a q' = .ok r → 0 < r.bound := by
  refine ⟨?_, mem_computeDoriRanges ts a q' hq',
    fun r h => resolveQuantity_ok_pos ts a q' r h⟩
  have hmem := mem_computeDoriRanges ts a q hq
  rwa [herr] at hmem

/-- C3 witness: with sensor width fixed at the degenerate value 0, the Free
pixel width fails with DegenerateGeometry while the Free pixel height is
still resolved, positively. -/
theorem C3_resolver_failure_isolation_witness :
    (Quantity.pixelWidth, Except.error DoriError.degenerateGeometry) ∈
        computeDoriRanges singleTarget degenerateAssignment ∧
      (Quantity.pixelHeight,
          resolveQuantity singleTarget degenerateAssignment .pixelHeight) ∈
        computeDoriRanges singleTarget degenerateAssignment ∧
      ∀ r : RangeResult,
        resolveQuantity singleTarget degenerateAssignment .pixelHeight =
          .ok r → 0 < r.bound :=
  C3_resolver_failure_isolation singleTarget degenerateAssignment
    .pixelWidth .pixelHeight rfl rfl (by decide) rfl

/-- C10 witness: the all-absent export is the all-zero camera and violates
the invariant. -/
theorem C10_export_zero_fallback_witness :
    (buildExportCamera emptyConstraints emptyRanges).sensor_width_mm = 0 ∧
      (buildExportCamera emptyConstraints emptyRanges).pixel_width = 0 ∧
      (buildExportCamera emptyConstraints emptyRanges).focal_length_mm = 0 ∧
      ¬ (buildExportCamera emptyConstraints emptyRanges).allPositive := by
  obtain ⟨-, h1, h2, h3, -, -, h4⟩ :=
    C10_export_zero_fallback emptyConstraints emptyRanges
  exact ⟨h1 rfl rfl, h2 rfl rfl, h3 rfl rfl, h4⟩

end CameraOptics
